import Mathlib

/-!
# Verification model of `cursor-auto-clicks.js`

A shallow embedding of the polling assistant: the DOM is a tree of text and
element nodes, an element is referred to by its path from the document, and
every function of the script becomes a pure function from the script state,
the document it reads and the clock readings to the new state and the list of
effects (log lines, clicks, focus, content writes, timers) it performs. A call
of a method the element does not have is an uncaught `TypeError`: it is the
last effect of the function that runs, and the statements after it are not
reached.

JavaScript strings are modelled as lists of characters. The script only
compares them with patterns made of characters of the Basic Multilingual
Plane, for which matching on code units and on code points agree.
-/

namespace CursorAutoClicks

/-! ## JavaScript strings -/

/-- A JavaScript string value. -/
abbrev JSString := List Char

/-- ECMAScript `LineTerminator`: LF, CR, LS, PS. -/
def isLineTerminator (c : Char) : Bool :=
  c.toNat == 0x0A || c.toNat == 0x0D || c.toNat == 0x2028 || c.toNat == 0x2029

/-- ECMAScript `WhiteSpace`: TAB, VT, FF, ZWNBSP and the space separators. -/
def isWhiteSpace (c : Char) : Bool :=
  c.toNat == 0x09 || c.toNat == 0x0B || c.toNat == 0x0C || c.toNat == 0xFEFF ||
  c.toNat == 0x20 || c.toNat == 0xA0 || c.toNat == 0x1680 ||
  (0x2000 ≤ c.toNat && c.toNat ≤ 0x200A) ||
  c.toNat == 0x202F || c.toNat == 0x205F || c.toNat == 0x3000

/-- The characters `String.prototype.trim` strips: white space and line terminators. -/
def isTrimChar (c : Char) : Bool :=
  isWhiteSpace c || isLineTerminator c

/-- `String.prototype.trim`. -/
def trim (s : JSString) : JSString :=
  ((s.dropWhile isTrimChar).reverse.dropWhile isTrimChar).reverse

/-- `String.prototype.includes`: `pat` occurs in `s` as a contiguous run. -/
def includes : JSString → JSString → Bool
  | [], pat => pat.isEmpty
  | c :: cs, pat => pat.isPrefixOf (c :: cs) || includes cs pat

/-! ## Regular expressions

The fragment of ECMAScript patterns the script uses: a sequence of terms, each
an assertion, a single atom or a greedily starred atom, without the `m`, `s`,
`i` or `u` flags. -/

/-- A pattern atom. -/
inductive Atom where
  /-- A literal character. -/
  | char (c : Char)
  /-- The dot: any character except a line terminator. -/
  | dot
  deriving DecidableEq, Repr

/-- A pattern term. -/
inductive Term where
  /-- The assertion `^` (start of input). -/
  | assertStart
  /-- The assertion `$` (end of input). -/
  | assertEnd
  /-- An atom matched once. -/
  | one (a : Atom)
  /-- An atom under the greedy quantifier `*`. -/
  | star (a : Atom)
  deriving DecidableEq, Repr

/-- A `RegExp` object: its pattern, the two flags that make `test` stateful,
and the mutable `lastIndex` property. -/
structure RegExp where
  source : List Term
  global : Bool
  sticky : Bool
  lastIndex : Nat
  deriving DecidableEq, Repr

/-- Does the atom accept the character? -/
def Atom.accepts : Atom → Char → Bool
  | .char c, x => x == c
  | .dot, x => !isLineTerminator x

/-- Greedy `a*` followed by the continuation `k`: take one more character when
possible, and fall back to the continuation when the longer attempt fails.
`i` is the index in the input of the first character of the second argument. -/
def matchStar (a : Atom) (k : Nat → JSString → Option Nat) : Nat → JSString → Option Nat
  | i, [] => k i []
  | i, c :: cs =>
    if a.accepts c then
      match matchStar a k (i + 1) cs with
      | some e => some e
      | none => k i (c :: cs)
    else k i (c :: cs)

/-- Match the terms at index `i`, where `rest` is the input from `i` on; the
result is the index just past the match. -/
def matchTerms : List Term → Nat → JSString → Option Nat
  | [], i, _ => some i
  | .assertStart :: ts, i, rest => if i = 0 then matchTerms ts i rest else none
  | .assertEnd :: ts, i, rest => if rest.isEmpty then matchTerms ts i rest else none
  | .one _ :: _, _, [] => none
  | .one a :: ts, i, c :: cs => if a.accepts c then matchTerms ts (i + 1) cs else none
  | .star a :: ts, i, rest => matchStar a (matchTerms ts) i rest

/-- Scan for the leftmost match starting at index `i` or later (only at `i`
for a sticky expression). -/
def search (ts : List Term) (sticky : Bool) : Nat → JSString → Option Nat
  | i, [] => matchTerms ts i []
  | i, c :: cs =>
    match matchTerms ts i (c :: cs) with
    | some e => some e
    | none => if sticky then none else search ts sticky (i + 1) cs

/-- `RegExp.prototype.test`: the result and the expression object afterwards.
`lastIndex` is read and written only under the `g` or `y` flag. -/
def RegExp.test (r : RegExp) (s : JSString) : Bool × RegExp :=
  let stateful := r.global || r.sticky
  let start := if stateful then r.lastIndex else 0
  if s.length < start then
    (false, if stateful then { r with lastIndex := 0 } else r)
  else
    match search r.source r.sticky start (s.drop start) with
    | some e => (true, if stateful then { r with lastIndex := e } else r)
    | none => (false, if stateful then { r with lastIndex := 0 } else r)

/-- The literal characters of a string as pattern terms. -/
def literal (s : String) : List Term :=
  s.toList.map fun c => Term.one (Atom.char c)

/-! ## The document tree -/

/-- A DOM node: a text node or an element. An element carries its local name,
its attributes, the tokens of its class list, whether `typeof el.click` is
`'function'` (true for HTML elements, false for SVG and MathML ones), whether
`typeof el.focus` is `'function'` (true for HTML, SVG and MathML elements,
false for an element of another namespace), and its children. -/
inductive Node where
  | text (data : String) : Node
  | element (tag : String) (attrs : List (String × String)) (classList : List String)
      (hasClick : Bool) (hasFocus : Bool) (children : List Node) : Node
  deriving Repr

/-- The document: the children of the document node. -/
abbrev Document := List Node

/-- An element reference: the child indices leading from the document to it. -/
abbrev Path := List Nat

mutual
/-- The `textContent` of a node: the text of its descendants, in order. -/
def Node.textContent : Node → JSString
  | .text d => d.toList
  | .element _ _ _ _ _ cs => textContentList cs
/-- The concatenated `textContent` of a list of sibling nodes. -/
def textContentList : List Node → JSString
  | [] => []
  | n :: ns => n.textContent ++ textContentList ns
end

mutual
/-- The elements of the subtree of a node placed at path `pre`, in document order. -/
def Node.paths (pre : Path) : Node → List Path
  | .text _ => []
  | .element _ _ _ _ _ cs => pre :: pathsList pre 0 cs
/-- The elements below the siblings `ns`, the first of which is child `i` of `pre`. -/
def pathsList (pre : Path) (i : Nat) : List Node → List Path
  | [] => []
  | n :: ns => n.paths (pre ++ [i]) ++ pathsList pre (i + 1) ns
end

/-- The node a path leads to. -/
def nodeAt : List Node → Path → Option Node
  | _, [] => none
  | ns, [i] => ns[i]?
  | ns, i :: j :: p =>
    match ns[i]? with
    | some (.element _ _ _ _ _ cs) => nodeAt cs (j :: p)
    | _ => none

/-- The children of a node (none for a text node). -/
def Node.children : Node → List Node
  | .text _ => []
  | .element _ _ _ _ _ cs => cs

/-- Is `typeof el.click === 'function'` for the node? -/
def Node.hasClick : Node → Bool
  | .text _ => false
  | .element _ _ _ h _ _ => h

/-- Is `typeof el.focus === 'function'` for the node? -/
def Node.hasFocus : Node → Bool
  | .text _ => false
  | .element _ _ _ _ h _ => h

/-- The `textContent` of the element at a path. -/
def textContent (d : Document) (el : Path) : JSString :=
  match nodeAt d el with
  | some n => n.textContent
  | none => []

/-- Is `click` a function of the element at a path? -/
def hasClick (d : Document) (el : Path) : Bool :=
  match nodeAt d el with
  | some n => n.hasClick
  | none => false

/-- Is `focus` a function of the element at a path? -/
def hasFocus (d : Document) (el : Path) : Bool :=
  match nodeAt d el with
  | some n => n.hasFocus
  | none => false

/-! ## Selectors -/

/-- A compound selector: an optional type selector, class selectors, attribute
selectors `[name="value"]` and `[name]`, and negated attribute selectors
`:not([name="value"])`. -/
structure Compound where
  tag : Option String := none
  classes : List String := []
  attrEq : List (String × String) := []
  attrHas : List String := []
  notAttrEq : List (String × String) := []
  deriving Repr

/-- A complex selector: compound selectors joined by descendant combinators,
the subject (rightmost compound) first. -/
abbrev Complex := List Compound

/-- A selector list: complex selectors separated by commas. -/
abbrev Selector := List Complex

/-- Does the node match the compound selector? -/
def Compound.matchesNode (c : Compound) : Node → Bool
  | .text _ => false
  | .element tag attrs classList _ _ _ =>
    (match c.tag with
      | some t => t == tag
      | none => true) &&
    c.classes.all (fun k => classList.contains k) &&
    c.attrEq.all (fun kv => attrs.lookup kv.1 == some kv.2) &&
    c.attrHas.all (fun k => (attrs.lookup k).isSome) &&
    c.notAttrEq.all (fun kv => attrs.lookup kv.1 != some kv.2)

/-- The proper ancestors of an element, nearest first. -/
def ancestors (el : Path) : List Path :=
  ((List.range el.length).reverse.filter (fun n => 0 < n)).map (fun n => el.take n)

/-- Does the element at `el` match the compound selector? -/
def matchesCompound (d : Document) (c : Compound) (el : Path) : Bool :=
  match nodeAt d el with
  | some n => c.matchesNode n
  | none => false

/-- Does the element at `el` match the complex selector? -/
def matchesComplex (d : Document) : Complex → Path → Bool
  | [], _ => false
  | [c], el => matchesCompound d c el
  | c :: c2 :: cs, el =>
    matchesCompound d c el && (ancestors el).any (fun a => matchesComplex d (c2 :: cs) a)

/-- `Element.prototype.matches`. -/
def elementMatches (d : Document) (sel : Selector) (el : Path) : Bool :=
  sel.any (fun cx => matchesComplex d cx el)

/-- `Element.prototype.closest`: the nearest inclusive ancestor matching the selector. -/
def closest (d : Document) (el : Path) (sel : Selector) : Option Path :=
  (el :: ancestors el).find? (elementMatches d sel)

/-- `document.querySelectorAll`: the matching elements in document order. -/
def querySelectorAll (d : Document) (sel : Selector) : List Path :=
  (pathsList [] 0 d).filter (elementMatches d sel)

/-- `document.querySelector`: the first matching element. -/
def querySelector (d : Document) (sel : Selector) : Option Path :=
  (querySelectorAll d sel).head?

/-- `Element.prototype.querySelectorAll`: the matching descendants of `root`,
in document order. -/
def querySelectorAllIn (d : Document) (root : Path) (sel : Selector) : List Path :=
  match nodeAt d root with
  | some n => (pathsList root 0 n.children).filter (elementMatches d sel)
  | none => []

/-! ## Configuration (lines 4-38 of the script) -/

/-- The polling period in milliseconds. -/
def CHECK_INTERVAL : Nat := 2000

/-- The delay before a recovery is verified, in milliseconds. -/
def VERIFICATION_TIMEOUT : Nat := 5000

/-- The text the backup plan types. -/
def TEXT_TO_TYPE : JSString := "继续".toList

/-- The `type` and `value` of a proactive action: a regular expression tested
against the text, or a string compared with it. -/
inductive ActionPattern where
  | regex (value : RegExp)
  | text (value : JSString)
  deriving DecidableEq, Repr

/-- An entry of `PROACTIVE_ACTIONS`. -/
structure ProactiveAction where
  name : JSString
  pattern : ActionPattern
  target : Selector
  deriving Repr

/-- An entry of `ERROR_SCENARIOS`. -/
structure ErrorScenario where
  name : JSString
  errorMessage : JSString
  buttonText : JSString
  deriving DecidableEq, Repr

/-- The expression `/^Accept.*⏎$/`: no flags. -/
def acceptRegExp : RegExp where
  source := [Term.assertStart] ++ literal "Accept" ++ [Term.star Atom.dot] ++ literal "⏎" ++
    [Term.assertEnd]
  global := false
  sticky := false
  lastIndex := 0

/-- The selector `span`. -/
def spanSelector : Selector := [[{ tag := some "span" }]]

/-- The selector `a, span`. -/
def anchorOrSpanSelector : Selector := [[{ tag := some "a" }], [{ tag := some "span" }]]

/-- The selector `div, a, span[role="link"], [data-link]`. -/
def proactiveClickableSelector : Selector :=
  [[{ tag := some "div" }], [{ tag := some "a" }],
   [{ tag := some "span", attrEq := [("role", "link")] }], [{ attrHas := ["data-link"] }]]

/-- The selector `.bg-dropdown-background`. -/
def errorContainerSelector : Selector := [[{ classes := ["bg-dropdown-background"] }]]

/-- The selector `div[role="button"], a, span[role="link"]`. -/
def recoveryClickableSelector : Selector :=
  [[{ tag := some "div", attrEq := [("role", "button")] }], [{ tag := some "a" }],
   [{ tag := some "span", attrEq := [("role", "link")] }]]

/-- The selector `div[contenteditable="true"].aislash-editor-input`. -/
def inputBoxSelector : Selector :=
  [[{ tag := some "div", attrEq := [("contenteditable", "true")],
      classes := ["aislash-editor-input"] }]]

/-- The selector
`.anysphere-icon-button:not([data-disabled="true"]) span.codicon-arrow-up-two`. -/
def sendIconSelector : Selector :=
  [[{ tag := some "span", classes := ["codicon-arrow-up-two"] },
    { classes := ["anysphere-icon-button"], notAttrEq := [("data-disabled", "true")] }]]

/-- The selector `.anysphere-icon-button`. -/
def sendButtonSelector : Selector := [[{ classes := ["anysphere-icon-button"] }]]

/-- The action "Accept Suggestion". -/
def acceptSuggestion : ProactiveAction where
  name := "Accept Suggestion".toList
  pattern := ActionPattern.regex acceptRegExp
  target := spanSelector

/-- The action "Resume Conversation". -/
def resumeConversation : ProactiveAction where
  name := "Resume Conversation".toList
  pattern := ActionPattern.text "resume the conversation".toList
  target := anchorOrSpanSelector

/-- The proactive actions, in priority order. -/
def PROACTIVE_ACTIONS : List ProactiveAction := [acceptSuggestion, resumeConversation]

/-- The scenario "Model Connection Error". -/
def modelConnectionError : ErrorScenario where
  name := "Model Connection Error".toList
  errorMessage := "We\x27re having trouble connecting to the model provider".toList
  buttonText := "Resume".toList

/-- The scenario "Network Connection Error". -/
def networkConnectionError : ErrorScenario where
  name := "Network Connection Error".toList
  errorMessage := "Connection failed".toList
  buttonText := "Try again".toList

/-- The error scenarios, in order. -/
def ERROR_SCENARIOS : List ErrorScenario := [modelConnectionError, networkConnectionError]

/-! ## State and effects -/

/-- The variables of the script's closure, and whether `window.stopAssistant`
is defined. -/
structure State where
  isAttemptingRecovery : Bool
  lastActionTime : Int
  intervalId : Option Nat
  stopHandle : Bool
  deriving DecidableEq, Repr

/-- The state when the script is loaded (lines 42-44), before `start()`. -/
def State.initial : State where
  isAttemptingRecovery := false
  lastActionTime := 0
  intervalId := none
  stopHandle := false

/-- The second argument of `log`. -/
inductive LogType where
  | info | success | warn | error | debug
  deriving DecidableEq, Repr

/-- The closures the script hands to `setTimeout`. -/
inductive Callback where
  /-- The verification of lines 197-207, for the scenario being recovered. -/
  | verification (scenario : ErrorScenario)
  /-- The delayed click on the send button, lines 133-146. -/
  | sendClick
  deriving DecidableEq, Repr

/-- What the script does to its environment. -/
inductive Effect where
  /-- A call of `log(message, type)`. -/
  | log (message : JSString) (type : LogType)
  /-- A direct call of `console.log`. -/
  | consoleLog (message : JSString)
  /-- A call of `el.click()`. -/
  | click (el : Path)
  /-- A call of `el.focus()`. -/
  | focus (el : Path)
  /-- An assignment to `el.innerHTML`. -/
  | setInnerHTML (el : Path) (html : JSString)
  /-- The dispatch of a bubbling, cancelable `input` event on `el`. -/
  | dispatchInput (el : Path)
  /-- A call of `setTimeout(cb, delay)`. -/
  | setTimeout (cb : Callback) (delay : Nat)
  /-- The call `setInterval(performCheckAndAction, delay)`, which returned `id`. -/
  | setInterval (delay : Nat) (id : Nat)
  /-- A call of `clearInterval(id)`. -/
  | clearInterval (id : Nat)
  /-- An uncaught `TypeError`: the script called a property that is not a
  function. The throw ends the function that runs and every caller of it; the
  effects listed before it are those performed before the throw. -/
  | typeError
  deriving DecidableEq, Repr

/-- Is the effect an uncaught `TypeError`? -/
def Effect.isTypeError : Effect → Bool
  | Effect.typeError => true
  | _ => false

/-- Did the call that performed these effects end by throwing? -/
def threw (effects : List Effect) : Bool :=
  effects.any Effect.isTypeError

/-! ## The functions of the script -/

/-- The test of lines 89-93: does the trimmed text match the action? -/
def actionMatches (action : ProactiveAction) (text : JSString) : Bool :=
  match action.pattern with
  | ActionPattern.regex value => (value.test text).1
  | ActionPattern.text value => text == value

/-- The element `handleProactiveActions` clicks for a matched element `el`:
`el.closest('div, a, span[role="link"], [data-link]') || el`. -/
def clickableElement (d : Document) (el : Path) : Path :=
  (closest d el proactiveClickableSelector).getD el

/-- The message logged before a proactive click. -/
def proactiveMessage (action : ProactiveAction) (text : JSString) : JSString :=
  "发现并点击主动操作: \"".toList ++ action.name ++ "\" (文本: \"".toList ++ text ++ "\")".toList

/-- The inner loop of `handleProactiveActions` (lines 86-103) over the elements
still to visit: the effects of the click when one is made. -/
def scanElements (d : Document) (action : ProactiveAction) : List Path → Option (List Effect)
  | [] => none
  | el :: els =>
    let text := trim (textContent d el)
    if actionMatches action text then
      if hasClick d (clickableElement d el) then
        some [Effect.log (proactiveMessage action text) LogType.success,
              Effect.click (clickableElement d el)]
      else scanElements d action els
    else scanElements d action els

/-- The outer loop of `handleProactiveActions` (lines 82-104) over the actions
still to try. -/
def scanActions (d : Document) : List ProactiveAction → Bool × List Effect
  | [] => (false, [])
  | action :: actions =>
    let elements := querySelectorAll d action.target
    if elements.length == 0 && decide (CHECK_INTERVAL < 5000) then scanActions d actions
    else
      match scanElements d action elements with
      | some effects => (true, effects)
      | none => scanActions d actions

/-- `handleProactiveActions()`: the returned boolean and the effects. -/
def handleProactiveActions (d : Document) : Bool × List Effect :=
  scanActions d PROACTIVE_ACTIONS

/-- The inner loop of `findActiveError` (line 115): the first scenario whose
message the text includes. -/
def matchingScenario (text : JSString) : List ErrorScenario → Option ErrorScenario
  | [] => none
  | scenario :: scenarios =>
    if includes text scenario.errorMessage then some scenario
    else matchingScenario text scenarios

/-- The outer loop of `findActiveError` (line 114) over the spans still to visit. -/
def scanSpans (d : Document) : List Path → Option (Path × ErrorScenario)
  | [] => none
  | span :: spans =>
    match matchingScenario (textContent d span) ERROR_SCENARIOS with
    | some scenario => some (span, scenario)
    | none => scanSpans d spans

/-- `findActiveError()`. -/
def findActiveError (d : Document) : Option (Path × ErrorScenario) :=
  scanSpans d (querySelectorAll d spanSelector)

/-- The first log line of `executeBackupPlan` (line 126). -/
def backupPlanBanner : Effect :=
  Effect.log "执行备用方案：输入并发送。".toList LogType.warn

/-- The log line of line 129. -/
def typingMessage : Effect :=
  Effect.log ("正在输入框中输入: \"".toList ++ TEXT_TO_TYPE ++ "\"".toList) LogType.info

/-- The log line of line 148. -/
def noInputBoxMessage : Effect :=
  Effect.log "备用方案失败：未找到可输入的文本框。".toList LogType.error

/-- `executeBackupPlan()` (lines 125-150), up to the scheduling of the send
click. Line 130 calls `inputBox.focus()` without testing that it is a
function: on an input box without a `focus` method the call throws after the
two log lines. -/
def executeBackupPlan (d : Document) : List Effect :=
  backupPlanBanner ::
  match querySelector d inputBoxSelector with
  | some inputBox =>
    typingMessage ::
    (if hasFocus d inputBox then
      [Effect.focus inputBox,
       Effect.setInnerHTML inputBox ("<p>".toList ++ TEXT_TO_TYPE ++ "</p>".toList),
       Effect.dispatchInput inputBox,
       Effect.setTimeout Callback.sendClick 500]
    else [Effect.typeError])
  | none => [noInputBoxMessage]

/-- The timer callback of `executeBackupPlan` (lines 133-146), run on the
document as it is when the timer fires. Line 139 calls `click()` without
testing that it is a function: on a button without a `click` method the call
throws after the log line. -/
def sendClickCallback (d : Document) : List Effect :=
  match querySelector d sendIconSelector with
  | some sendButton =>
    match closest d sendButton sendButtonSelector with
    | some clickableSendButton =>
      [Effect.log "找到发送按钮，正在点击...".toList LogType.success,
       if hasClick d clickableSendButton then Effect.click clickableSendButton
       else Effect.typeError]
    | none => [Effect.log "找到了发送图标，但无法找到可点击的父按钮。".toList LogType.error]
  | none => [Effect.log "未找到可用的发送按钮。".toList LogType.error]

/-- The loop of lines 187-192: the clickable ancestor of the first span whose
trimmed text is the button text (`null` when there is no such span or it has no
such ancestor). -/
def findActionButton (d : Document) (scenario : ErrorScenario) : List Path → Option Path
  | [] => none
  | btnSpan :: spans =>
    if trim (textContent d btnSpan) == scenario.buttonText then
      closest d btnSpan recoveryClickableSelector
    else findActionButton d scenario spans

/-- The log line of line 161. -/
def skipMessage : Effect :=
  Effect.log "正在恢复中，跳过本轮检查。".toList LogType.debug

/-- The log line of line 175. -/
def detectedMessage (scenario : ErrorScenario) : Effect :=
  Effect.log ("检测到错误: \"".toList ++ scenario.name ++ "\"。开始恢复流程...".toList) LogType.warn

/-- The log line of line 179. -/
def noContainerMessage : Effect :=
  Effect.log "未找到错误提示的容器，将直接尝试备用方案。".toList LogType.error

/-- The log line of line 195. -/
def clickedMessage (scenario : ErrorScenario) : Effect :=
  Effect.log ("已点击 \x27".toList ++ scenario.buttonText ++ "\x27。进入 ".toList ++
    (Nat.repr (VERIFICATION_TIMEOUT / 1000)).toList ++ " 秒验证期...".toList) LogType.success

/-- The log line of line 209. -/
def noButtonMessage (scenario : ErrorScenario) : Effect :=
  Effect.log ("在错误提示中未找到 \x27".toList ++ scenario.buttonText ++
    "\x27 按钮，将直接尝试备用方案。".toList) LogType.error

/-- `performCheckAndAction()` (lines 153-214). `now` is the value of
`Date.now()` read by the cooldown test of line 158 and `now2` the value read
when `lastActionTime` is assigned (line 166 or 173). When `executeBackupPlan()`
throws (lines 180, 210), the assignment `isAttemptingRecovery = false` after it
(lines 181, 211) is not reached. -/
def performCheckAndAction (s : State) (d : Document) (now now2 : Int) : State × List Effect :=
  if now - s.lastActionTime < 1000 then (s, [])
  else if s.isAttemptingRecovery then (s, [skipMessage])
  else
    match handleProactiveActions d with
    | (true, effects) => ({ s with lastActionTime := now2 }, effects)
    | (false, effects) =>
      match findActiveError d with
      | none => (s, effects)
      | some (element, scenario) =>
        let s1 := { s with isAttemptingRecovery := true, lastActionTime := now2 }
        let e1 := effects ++ [detectedMessage scenario]
        match closest d element errorContainerSelector with
        | none =>
          (if threw (executeBackupPlan d) then s1 else { s1 with isAttemptingRecovery := false },
            e1 ++ [noContainerMessage] ++ executeBackupPlan d)
        | some errorContainer =>
          let fallback : State × List Effect :=
            (if threw (executeBackupPlan d) then s1
              else { s1 with isAttemptingRecovery := false },
              e1 ++ [noButtonMessage scenario] ++ executeBackupPlan d)
          match findActionButton d scenario (querySelectorAllIn d errorContainer spanSelector) with
          | some actionButton =>
            if hasClick d actionButton then
              (s1, e1 ++ [clickedMessage scenario, Effect.click actionButton,
                Effect.setTimeout (Callback.verification scenario) VERIFICATION_TIMEOUT])
            else fallback
          | none => fallback

/-- The log line of line 198. -/
def verifyStartMessage : Effect :=
  Effect.log "验证期结束，重新检查错误状态...".toList LogType.info

/-- The log line of line 200. -/
def verifyFailedMessage : Effect :=
  Effect.log "初步恢复失败，错误依然存在。".toList LogType.error

/-- The log line of line 203. -/
def verifySuccessMessage (scenario : ErrorScenario) : Effect :=
  Effect.log ("\x27".toList ++ scenario.buttonText ++ "\x27 操作成功，错误已清除。".toList)
    LogType.success

/-- The log line of line 205. -/
def recoveryEndMessage : Effect :=
  Effect.log "恢复流程结束。".toList LogType.info

/-- The timer callback of lines 197-207, run on the state and the document as
they are when the timer fires. When `executeBackupPlan()` throws (line 201),
lines 205-206 are not reached: no closing log line, and
`isAttemptingRecovery` keeps its value. -/
def verificationCallback (scenario : ErrorScenario) (s : State) (d : Document) :
    State × List Effect :=
  match findActiveError d with
  | some _ =>
    if threw (executeBackupPlan d) then
      (s, [verifyStartMessage, verifyFailedMessage] ++ executeBackupPlan d)
    else
      ({ s with isAttemptingRecovery := false },
        [verifyStartMessage, verifyFailedMessage] ++ executeBackupPlan d ++
          [recoveryEndMessage])
  | none =>
    ({ s with isAttemptingRecovery := false },
      [verifyStartMessage, verifySuccessMessage scenario, recoveryEndMessage])

/-- `start()` (lines 217-239); `id` is the handle `setInterval` returns. -/
def start (s : State) (id : Nat) : State × List Effect :=
  if s.stopHandle then
    (s, [Effect.log "脚本已在运行中。如需重启，请先运行 stopAssistant()。".toList LogType.warn])
  else
    ({ s with intervalId := some id, stopHandle := true },
      [Effect.log ("脚本已启动，每 ".toList ++ (Nat.repr (CHECK_INTERVAL / 1000)).toList ++
          " 秒检查一次。".toList) LogType.success,
       Effect.setInterval CHECK_INTERVAL id,
       Effect.consoleLog
         "%c提示: 如需停止脚本，请在控制台输入 \x27stopAssistant()\x27 并按回车。".toList])

/-- The function `start()` stores in `window.stopAssistant` (lines 225-236).
`!intervalId` holds when `intervalId` is `null` or `0`. -/
def stopAssistant (s : State) : State × List Effect :=
  match s.intervalId with
  | some id =>
    if id == 0 then (s, [Effect.log "脚本已经停止了。".toList LogType.warn])
    else
      ({ s with intervalId := none, isAttemptingRecovery := false, stopHandle := false },
        [Effect.clearInterval id,
         Effect.log "脚本已手动停止。".toList LogType.info,
         Effect.consoleLog "%c脚本已停止。如需重新启动，请再次粘贴并运行脚本代码。".toList])
  | none => (s, [Effect.log "脚本已经停止了。".toList LogType.warn])

/-! ## The script and its pending timers -/

/-- The script state together with the one-shot timers it has scheduled and
that have not fired yet. -/
structure System where
  state : State
  timers : List Callback
  deriving DecidableEq, Repr

/-- The callbacks a list of effects hands to `setTimeout`. -/
def scheduled : List Effect → List Callback
  | [] => []
  | Effect.setTimeout cb _ :: es => cb :: scheduled es
  | _ :: es => scheduled es

/-- Is the callback a verification callback? -/
def Callback.isVerification : Callback → Bool
  | Callback.verification _ => true
  | Callback.sendClick => false

/-- Is the effect a click? -/
def Effect.isClick : Effect → Bool
  | Effect.click _ => true
  | _ => false

/-- Run a timer callback on the current state and document. -/
def runCallback : Callback → State → Document → State × List Effect
  | Callback.verification scenario, s, d => verificationCallback scenario s d
  | Callback.sendClick, s, d => (s, sendClickCallback d)

/-- What can happen to the script: the interval invokes `performCheckAndAction`
on the current document, or the pending timer number `k` fires. -/
inductive Event where
  | tick (d : Document) (now now2 : Int)
  | fire (k : Nat) (d : Document)

/-- One step of the system and the effects performed (none when the event
names a timer that is not pending). -/
def System.step (sys : System) : Event → Option (System × List Effect)
  | Event.tick d now now2 =>
    let r := performCheckAndAction sys.state d now now2
    some ({ state := r.1, timers := sys.timers ++ scheduled r.2 }, r.2)
  | Event.fire k d =>
    match sys.timers[k]? with
    | none => none
    | some cb =>
      let r := runCallback cb sys.state d
      some ({ state := r.1, timers := sys.timers.eraseIdx k ++ scheduled r.2 }, r.2)

/-- The states reachable from an idle state without pending timers. -/
inductive Reachable : System → Prop where
  | init (s : State) (h : s.isAttemptingRecovery = false) :
      Reachable { state := s, timers := [] }
  | step {a b : System} {e : Event} {effects : List Effect} (ha : Reachable a)
      (hstep : a.step e = some (b, effects)) : Reachable b

/-- The number of verification callbacks pending. -/
def System.pendingVerifications (sys : System) : Nat :=
  (sys.timers.filter Callback.isVerification).length

/-- The interval timers active after a list of effects, given those active
before it: `setInterval` adds its handle, `clearInterval` removes it. -/
def activeIntervals : List Nat → List Effect → List Nat
  | table, [] => table
  | table, Effect.setInterval _ id :: es => activeIntervals (id :: table) es
  | table, Effect.clearInterval id :: es => activeIntervals (table.filter (fun j => j != id)) es
  | table, _ :: es => activeIntervals table es

/-! ## Sample documents -/

/-- A `span` holding one text node. -/
def sampleSpan (text : String) : Node :=
  Node.element "span" [] [] true true [Node.text text]

/-- A document whose only span reads "Accept ⏎" inside a `div`. -/
def acceptDocument : Document :=
  [Node.element "div" [] [] true true [sampleSpan "  Accept ⏎ "]]

/-- A network error banner with its "Try again" button. -/
def networkErrorDocument : Document :=
  [Node.element "div" [] ["bg-dropdown-background"] true true
    [sampleSpan "Connection failed. Please check your network.",
     Node.element "div" [("role", "button")] [] true true [sampleSpan "Try again"]]]

/-- The model error message in a `div`, with no span in the document. -/
def modelErrorInDiv : Document :=
  [Node.element "div" [] [] true true
    [Node.text "Sorry. We\x27re having trouble connecting to the model provider right now."]]

/-- A span reading "Connection failed" before the span with the model error. -/
def networkBeforeModel : Document :=
  [sampleSpan "Connection failed",
   sampleSpan "Sorry. We\x27re having trouble connecting to the model provider right now."]

/-- A model error banner with its "Resume" button. -/
def modelErrorDocument : Document :=
  [Node.element "div" [] ["bg-dropdown-background"] true true
    [sampleSpan "Sorry. We\x27re having trouble connecting to the model provider right now.",
     Node.element "div" [("role", "button")] [] true true [sampleSpan "Resume"]]]

/-- The span "Accept ⏎" in HTML content embedded in an SVG anchor, an element
without a `click` method. -/
def acceptInSvgAnchor : Document :=
  [Node.element "a" [] [] false true
    [Node.element "foreignObject" [] [] false true [sampleSpan "Accept ⏎"]]]

/-- A network error banner whose "Try again" label sits in an SVG anchor. -/
def networkErrorSvgButton : Document :=
  [Node.element "div" [] ["bg-dropdown-background"] true true
    [sampleSpan "Connection failed. Please check your network.",
     Node.element "a" [] [] false true
       [Node.element "foreignObject" [] [] false true [sampleSpan "Try again"]]]]

/-- A network error outside any notification container, and an element that
matches the input box selector but is no HTML element: it has neither a
`focus` nor a `click` method. -/
def networkErrorForeignInput : Document :=
  [Node.element "div" [] [] true true
    [sampleSpan "Connection failed. Please check your network.",
     Node.element "div" [("role", "button")] [] true true [sampleSpan "Try again"]],
   Node.element "div" [("contenteditable", "true")] ["aislash-editor-input"] false false []]

/-- The network error banner still shown, and an element that matches the
input box selector but has neither a `focus` nor a `click` method. -/
def networkErrorPersistsForeignInput : Document :=
  networkErrorDocument ++
  [Node.element "div" [("contenteditable", "true")] ["aislash-editor-input"] false false []]

/-- A network error outside any notification container, and the chat input box. -/
def networkErrorNoContainer : Document :=
  [Node.element "div" [] [] true true
    [sampleSpan "Connection failed. Please check your network.",
     Node.element "div" [("role", "button")] [] true true [sampleSpan "Try again"]],
   Node.element "div" [("contenteditable", "true")] ["aislash-editor-input"] true true []]

/-- The system after a first tick at time 5000 on `networkErrorDocument`:
a recovery is in flight. -/
def recoveringSystem : System where
  state := (performCheckAndAction State.initial networkErrorDocument 5000 5001).1
  timers := [] ++ scheduled (performCheckAndAction State.initial networkErrorDocument 5000 5001).2

/-- The state of a script started with interval handle 7. -/
def startedState : State := (start State.initial 7).1

/-! ## Lemmas on the proactive scan -/

theorem scanElements_some (d : Document) (action : ProactiveAction) (els : List Path)
    (effects : List Effect) (h : scanElements d action els = some effects) :
    ∃ el ∈ els, actionMatches action (trim (textContent d el)) = true ∧
      hasClick d (clickableElement d el) = true ∧
      effects = [Effect.log (proactiveMessage action (trim (textContent d el))) LogType.success,
                 Effect.click (clickableElement d el)] := by
  induction els with
  | nil => simp [scanElements] at h
  | cons el els ih =>
    simp only [scanElements] at h
    split at h
    · split at h
      · rename_i h1 h2
        injection h with h
        exact ⟨el, List.mem_cons_self _ _, h1, h2, h.symm⟩
      · obtain ⟨e, he, r⟩ := ih h
        exact ⟨e, List.mem_cons_of_mem _ he, r⟩
    · obtain ⟨e, he, r⟩ := ih h
      exact ⟨e, List.mem_cons_of_mem _ he, r⟩

theorem scanActions_true (d : Document) (actions : List ProactiveAction)
    (effects : List Effect) (h : scanActions d actions = (true, effects)) :
    ∃ action ∈ actions, ∃ el ∈ querySelectorAll d action.target,
      actionMatches action (trim (textContent d el)) = true ∧
      hasClick d (clickableElement d el) = true ∧
      effects = [Effect.log (proactiveMessage action (trim (textContent d el))) LogType.success,
                 Effect.click (clickableElement d el)] := by
  induction actions with
  | nil => simp [scanActions] at h
  | cons a as ih =>
    simp only [scanActions] at h
    split at h
    · obtain ⟨x, hx, r⟩ := ih h
      exact ⟨x, List.mem_cons_of_mem _ hx, r⟩
    · split at h
      · rename_i effs hs
        injection h with _ h2
        subst h2
        obtain ⟨el, hel, r⟩ := scanElements_some d a _ _ hs
        exact ⟨a, List.mem_cons_self _ _, el, hel, r⟩
      · obtain ⟨x, hx, r⟩ := ih h
        exact ⟨x, List.mem_cons_of_mem _ hx, r⟩

theorem scanActions_false (d : Document) (actions : List ProactiveAction)
    (h : (scanActions d actions).1 = false) : scanActions d actions = (false, []) := by
  induction actions with
  | nil => simp [scanActions]
  | cons a as ih =>
    simp only [scanActions] at h ⊢
    split
    · rename_i hc
      rw [if_pos hc] at h
      exact ih h
    · rename_i hc
      rw [if_neg hc] at h
      split
      · rename_i effs hs
        rw [hs] at h
        simp at h
      · rename_i hs
        rw [hs] at h
        exact ih h

theorem scanElements_first (d : Document) (action : ProactiveAction) (els : List Path)
    (el : Path)
    (hfirst : els.find? (fun e => actionMatches action (trim (textContent d e))) = some el)
    (hclick : hasClick d (clickableElement d el) = true) :
    scanElements d action els =
      some [Effect.log (proactiveMessage action (trim (textContent d el))) LogType.success,
            Effect.click (clickableElement d el)] := by
  induction els with
  | nil => simp at hfirst
  | cons e es ih =>
    simp only [List.find?_cons] at hfirst
    simp only [scanElements]
    split at hfirst
    · rename_i hm
      injection hfirst with hfirst
      subst hfirst
      simp [hm, hclick]
    · rename_i hm
      simp [hm, ih hfirst]

/-! ## Lemmas on timers and the backup plan -/

theorem scheduled_log (m : JSString) (t : LogType) (es : List Effect) :
    scheduled (Effect.log m t :: es) = scheduled es := rfl

theorem scheduled_click (el : Path) (es : List Effect) :
    scheduled (Effect.click el :: es) = scheduled es := rfl

theorem scheduled_setTimeout (cb : Callback) (t : Nat) (es : List Effect) :
    scheduled (Effect.setTimeout cb t :: es) = cb :: scheduled es := rfl

theorem scheduled_nil : scheduled [] = [] := rfl

theorem executeBackupPlan_no_click (d : Document) :
    ∀ e ∈ executeBackupPlan d, e.isClick = false := by
  unfold executeBackupPlan
  split
  · split <;> simp [backupPlanBanner, typingMessage, noInputBoxMessage, Effect.isClick]
  · simp [backupPlanBanner, typingMessage, noInputBoxMessage, Effect.isClick]

theorem executeBackupPlan_scheduled (d : Document) :
    (scheduled (executeBackupPlan d)).filter Callback.isVerification = [] := by
  unfold executeBackupPlan
  split
  · split <;> simp [backupPlanBanner, typingMessage, noInputBoxMessage, scheduled, Callback.isVerification]
  · simp [backupPlanBanner, typingMessage, noInputBoxMessage, scheduled, Callback.isVerification]

theorem executeBackupPlan_banner (d : Document) :
    (executeBackupPlan d).count backupPlanBanner = 1 := by
  unfold executeBackupPlan
  split
  · split <;> simp [backupPlanBanner, typingMessage, noInputBoxMessage, List.count_cons]
  · simp [backupPlanBanner, typingMessage, noInputBoxMessage, List.count_cons]

theorem scheduled_append (xs ys : List Effect) :
    scheduled (xs ++ ys) = scheduled xs ++ scheduled ys := by
  induction xs with
  | nil => rfl
  | cons x xs ih => cases x <;> simp [scheduled, ih]

theorem findActionButton_eq (d : Document) (scenario : ErrorScenario) (spans : List Path) :
    findActionButton d scenario spans =
      (spans.find? (fun e => trim (textContent d e) == scenario.buttonText)).bind
        (fun btnSpan => closest d btnSpan recoveryClickableSelector) := by
  induction spans with
  | nil => rfl
  | cons e es ih =>
    simp only [findActionButton, List.find?_cons]
    split
    · rename_i h
      simp [h]
    · rename_i h
      simp [h, ih]

/-! ## Lemmas on the tick and the reachable states -/

theorem tick_in_flight (s : State) (d : Document) (now now2 : Int)
    (h : s.isAttemptingRecovery = true) :
    performCheckAndAction s d now now2 = (s, []) ∨
    performCheckAndAction s d now now2 = (s, [skipMessage]) := by
  unfold performCheckAndAction
  by_cases hc : now - s.lastActionTime < 1000
  · rw [if_pos hc]; exact Or.inl rfl
  · rw [if_neg hc, if_pos h]; exact Or.inr rfl

theorem tick_idle_count (s : State) (d : Document) (now now2 : Int)
    (h : s.isAttemptingRecovery = false) :
    ((scheduled (performCheckAndAction s d now now2).2).filter Callback.isVerification).length ≤
      if (performCheckAndAction s d now now2).1.isAttemptingRecovery then 1 else 0 := by
  have hb := executeBackupPlan_scheduled d
  unfold performCheckAndAction
  by_cases hc : now - s.lastActionTime < 1000
  · simp [hc, h, scheduled_nil]
  · rw [if_neg hc]
    simp only [h, Bool.false_eq_true, if_false]
    cases hp : handleProactiveActions d with
    | mk acted effects =>
      cases acted with
      | true =>
        obtain ⟨_, _, _, _, _, _, heff⟩ := scanActions_true d PROACTIVE_ACTIONS effects hp
        subst heff
        simp [h, scheduled_log, scheduled_click, scheduled_nil]
      | false =>
        have he : effects = [] := by
          have h2 : handleProactiveActions d = (false, []) :=
            scanActions_false d PROACTIVE_ACTIONS (by
              show (handleProactiveActions d).1 = false
              rw [hp])
          rw [hp] at h2
          injection h2
        subst he
        simp only [List.nil_append]
        cases herr : findActiveError d with
        | none => simp [h, scheduled_log, scheduled_click, scheduled_nil]
        | some found =>
          obtain ⟨element, scenario⟩ := found
          cases hcont : closest d element errorContainerSelector with
          | none =>
            simp [hcont, scheduled_append, scheduled_log, scheduled_nil, hb, detectedMessage,
              noContainerMessage]
          | some errorContainer =>
            cases hbtn : findActionButton d scenario
                (querySelectorAllIn d errorContainer spanSelector) with
            | none =>
              simp [hcont, hbtn, scheduled_append, scheduled_log, scheduled_nil, hb,
                detectedMessage, noButtonMessage]
            | some b =>
              cases hk : hasClick d b with
              | true =>
                simp [hcont, hbtn, hk, scheduled_log, scheduled_click, scheduled_setTimeout,
                  scheduled_nil, detectedMessage, clickedMessage, Callback.isVerification]
              | false =>
                simp [hcont, hbtn, hk, scheduled_append, scheduled_log, scheduled_nil, hb,
                  detectedMessage, noButtonMessage]

theorem verificationCallback_count (scenario : ErrorScenario) (s : State) (d : Document) :
    (scheduled (verificationCallback scenario s d).2).filter Callback.isVerification = [] := by
  have hb := executeBackupPlan_scheduled d
  unfold verificationCallback
  split
  · split <;>
      simp [scheduled_append, scheduled_log, scheduled_nil, hb, verifyStartMessage,
        verifyFailedMessage, recoveryEndMessage]
  · simp [scheduled_log, scheduled_nil, verifyStartMessage, verifySuccessMessage,
      recoveryEndMessage]

theorem sendClickCallback_scheduled (d : Document) : scheduled (sendClickCallback d) = [] := by
  unfold sendClickCallback
  split
  · split
    · split <;> rfl
    · rfl
  · rfl

theorem filter_eraseIdx_length {α : Type} (p : α → Bool) (l : List α) (k : Nat) (x : α)
    (h : l[k]? = some x) :
    ((l.eraseIdx k).filter p).length + (if p x then 1 else 0) = (l.filter p).length := by
  induction l generalizing k with
  | nil => simp at h
  | cons a l ih =>
    cases k with
    | zero =>
      simp at h
      subst h
      by_cases hp : p a <;> simp [List.filter_cons, hp]
    | succ k =>
      simp at h
      have := ih k h
      by_cases hp : p a <;> simp [List.filter_cons, hp] <;> omega

theorem reachable_invariant (sys : System) (h : Reachable sys) :
    sys.pendingVerifications ≤ if sys.state.isAttemptingRecovery then 1 else 0 := by
  induction h with
  | init s hs => simp [System.pendingVerifications, hs]
  | @step a b e effects ha hstep ih =>
    cases e with
    | tick d now now2 =>
      simp only [System.step, Option.some.injEq, Prod.mk.injEq] at hstep
      obtain ⟨hb, _⟩ := hstep
      subst hb
      simp only [System.pendingVerifications, List.filter_append, List.length_append] at ih ⊢
      cases hf : a.state.isAttemptingRecovery with
      | true =>
        rw [hf] at ih
        rcases tick_in_flight a.state d now now2 hf with h1 | h1 <;>
          rw [h1] <;> simp [scheduled, skipMessage, hf] <;> simpa using ih
      | false =>
        rw [hf] at ih
        simp only [Bool.false_eq_true, if_false] at ih
        have hcount := tick_idle_count a.state d now now2 hf
        omega
    | fire k d =>
      simp only [System.step] at hstep
      cases hk : a.timers[k]? with
      | none => rw [hk] at hstep; simp at hstep
      | some cb =>
        rw [hk] at hstep
        simp only [Option.some.injEq, Prod.mk.injEq] at hstep
        obtain ⟨hb, _⟩ := hstep
        subst hb
        have herase := filter_eraseIdx_length Callback.isVerification a.timers k cb hk
        simp only [System.pendingVerifications, List.filter_append, List.length_append] at ih ⊢
        cases cb with
        | verification scenario =>
          have h2 := verificationCallback_count scenario a.state d
          simp only [runCallback, h2, List.length_nil, Nat.add_zero]
          simp only [Callback.isVerification, if_true] at herase
          have hle : (List.filter Callback.isVerification a.timers).length ≤ 1 := by
            split at ih <;> omega
          have hz : (List.filter Callback.isVerification (a.timers.eraseIdx k)).length = 0 := by
            omega
          rw [hz]
          exact Nat.zero_le _
        | sendClick =>
          simp only [runCallback, sendClickCallback_scheduled, List.filter_nil, List.length_nil,
            Nat.add_zero]
          simp only [Callback.isVerification, Bool.false_eq_true, if_false, Nat.add_zero]
            at herase
          rw [herase]
          exact ih

/-! ## Lemmas on the regular expression -/

theorem search_assertStart_succ (ts : List Term) (i : Nat) (rest : JSString) :
    search (Term.assertStart :: ts) false (i + 1) rest = none := by
  induction rest generalizing i with
  | nil => simp [search, matchTerms]
  | cons c cs ih => simp [search, matchTerms, ih]

theorem search_assertStart_zero (ts : List Term) (text : JSString) :
    search (Term.assertStart :: ts) false 0 text = matchTerms ts 0 text := by
  cases text with
  | nil => simp [search, matchTerms]
  | cons c cs =>
    simp only [search, matchTerms, if_true, search_assertStart_succ]
    cases matchTerms ts 0 (c :: cs) <;> simp

theorem matchStar_dot_isSome (k : Nat → JSString → Option Nat) (i : Nat) (rest : JSString) :
    (matchStar Atom.dot k i rest).isSome = true ↔
      ∃ middle suffix, rest = middle ++ suffix ∧
        (∀ c ∈ middle, isLineTerminator c = false) ∧
        (k (i + middle.length) suffix).isSome = true := by
  induction rest generalizing i with
  | nil =>
    simp only [matchStar]
    constructor
    · intro h
      exact ⟨[], [], rfl, by simp, by simpa using h⟩
    · rintro ⟨middle, suffix, h, _, hk⟩
      have hm : middle = [] := by
        cases middle with
        | nil => rfl
        | cons _ _ => simp at h
      have hs : suffix = [] := by
        subst hm; simpa using h.symm
      subst hm hs
      simpa using hk
  | cons c cs ih =>
    simp only [matchStar, Atom.accepts]
    by_cases hc : isLineTerminator c = true
    · simp only [hc, Bool.not_true, Bool.false_eq_true, if_false]
      constructor
      · intro h
        exact ⟨[], c :: cs, rfl, by simp, by simpa using h⟩
      · rintro ⟨middle, suffix, h, hm, hk⟩
        cases middle with
        | nil =>
          simp at h; subst h; simpa using hk
        | cons m ms =>
          simp at h
          have := hm m (List.mem_cons_self _ _)
          rw [← h.1] at this
          rw [this] at hc
          simp at hc
    · have hc2 : isLineTerminator c = false := by simpa using hc
      simp only [hc2, Bool.not_false, if_true]
      cases hrec : matchStar Atom.dot k (i + 1) cs with
      | some e =>
        simp only [Option.isSome_some, true_iff]
        obtain ⟨middle, suffix, h1, h2, h3⟩ := (ih (i + 1)).mp (by rw [hrec]; rfl)
        refine ⟨c :: middle, suffix, by simp [h1], ?_, ?_⟩
        · intro x hx
          rcases List.mem_cons.mp hx with hx | hx
          · subst hx; exact hc2
          · exact h2 x hx
        · have : i + (c :: middle).length = i + 1 + middle.length := by simp; omega
          rw [this]; exact h3
      | none =>
        constructor
        · intro h
          exact ⟨[], c :: cs, rfl, by simp, by simpa using h⟩
        · rintro ⟨middle, suffix, h, hm, hk⟩
          cases middle with
          | nil =>
            simp at h; subst h; simpa using hk
          | cons m ms =>
            simp at h
            have hsome : (matchStar Atom.dot k (i + 1) cs).isSome = true := by
              refine (ih (i + 1)).mpr ⟨ms, suffix, h.2, ?_, ?_⟩
              · intro x hx; exact hm x (List.mem_cons_of_mem _ hx)
              · have : i + (m :: ms).length = i + 1 + ms.length := by simp; omega
                rw [this] at hk; exact hk
            rw [hrec] at hsome
            simp at hsome

theorem matchTerms_tail (j : Nat) (suffix : JSString) :
    (matchTerms [Term.one (Atom.char '⏎'), Term.assertEnd] j suffix).isSome = true ↔
      suffix = ['⏎'] := by
  cases suffix with
  | nil => simp [matchTerms]
  | cons c cs =>
    cases cs with
    | nil =>
      simp only [matchTerms, Atom.accepts]
      by_cases h : c = '⏎'
      · subst h; simp
      · simp [h]
    | cons c2 cs2 =>
      simp only [matchTerms, Atom.accepts]
      by_cases h : c = '⏎'
      · subst h; simp
      · simp [h]

theorem acceptRegExp_source :
    acceptRegExp.source =
      [Term.assertStart, Term.one (Atom.char 'A'), Term.one (Atom.char 'c'),
       Term.one (Atom.char 'c'), Term.one (Atom.char 'e'), Term.one (Atom.char 'p'),
       Term.one (Atom.char 't'), Term.star Atom.dot, Term.one (Atom.char '⏎'),
       Term.assertEnd] := by
  rfl

theorem test_accept (text : JSString) :
    (acceptRegExp.test text).1 = (matchTerms acceptRegExp.source.tail 0 text).isSome := by
  simp only [RegExp.test, acceptRegExp_source]
  simp only [acceptRegExp, Bool.or_self, Bool.false_eq_true, if_false, Nat.not_lt_zero,
    List.drop_zero, search_assertStart_zero, List.tail_cons]
  cases matchTerms _ 0 text <;> rfl

theorem matchTerms_char (a : Char) (ts : List Term) (i : Nat) (text : JSString) :
    (matchTerms (Term.one (Atom.char a) :: ts) i text).isSome = true ↔
      ∃ rest, text = a :: rest ∧ (matchTerms ts (i + 1) rest).isSome = true := by
  cases text with
  | nil => simp [matchTerms]
  | cons c cs =>
    simp only [matchTerms, Atom.accepts]
    by_cases h : c = a
    · subst h; simp
    · have h2 : ¬ a = c := fun e => h e.symm
      simp [h, h2]

theorem accept_iff (text : JSString) :
    (acceptRegExp.test text).1 = true ↔
      ∃ middle, text = "Accept".toList ++ middle ++ "⏎".toList ∧
        ∀ c ∈ middle, isLineTerminator c = false := by
  rw [test_accept, acceptRegExp_source]
  simp only [List.tail_cons]
  have hA : "Accept".toList = ['A', 'c', 'c', 'e', 'p', 't'] := by rfl
  have hR : "⏎".toList = ['⏎'] := by rfl
  rw [hA, hR]
  simp only [matchTerms_char]
  constructor
  · rintro ⟨r1, e1, r2, e2, r3, e3, r4, e4, r5, e5, r6, e6, h⟩
    subst e1 e2 e3 e4 e5 e6
    simp only [matchTerms] at h
    obtain ⟨middle, suffix, hr, hm, hk⟩ := (matchStar_dot_isSome _ _ r6).mp h
    rw [matchTerms_tail] at hk
    subst hk
    exact ⟨middle, by simp [hr], hm⟩
  · rintro ⟨middle, ht, hm⟩
    subst ht
    refine ⟨_, rfl, _, rfl, _, rfl, _, rfl, _, rfl, _, rfl, ?_⟩
    simp only [matchTerms]
    exact (matchStar_dot_isSome _ _ _).mpr ⟨middle, ['⏎'], rfl, hm, (matchTerms_tail _ _).mpr rfl⟩

theorem test_stateless (n : Nat) (text : JSString) :
    ({ acceptRegExp with lastIndex := n }.test text).1 = (acceptRegExp.test text).1 ∧
    ({ acceptRegExp with lastIndex := n }.test text).2 = { acceptRegExp with lastIndex := n } := by
  simp only [RegExp.test, acceptRegExp, Bool.or_self, Bool.false_eq_true, if_false,
    Nat.not_lt_zero, List.drop_zero]
  cases search _ false 0 text <;> exact ⟨rfl, rfl⟩

/-! ## Lemmas on the error scan -/

theorem matchingScenario_model (text : JSString)
    (h : includes text modelConnectionError.errorMessage = true) :
    matchingScenario text ERROR_SCENARIOS = some modelConnectionError := by
  simp [ERROR_SCENARIOS, matchingScenario, h]

theorem matchingScenario_none (text : JSString)
    (h1 : includes text modelConnectionError.errorMessage = false)
    (h2 : includes text networkConnectionError.errorMessage = false) :
    matchingScenario text ERROR_SCENARIOS = none := by
  simp [ERROR_SCENARIOS, matchingScenario, h1, h2]

theorem scanSpans_model (d : Document) (pre post : List Path) (el : Path)
    (hel : includes (textContent d el) modelConnectionError.errorMessage = true)
    (hpre : ∀ e ∈ pre, includes (textContent d e) networkConnectionError.errorMessage = true →
      includes (textContent d e) modelConnectionError.errorMessage = true) :
    ∃ e, scanSpans d (pre ++ el :: post) = some (e, modelConnectionError) := by
  induction pre with
  | nil =>
    exact ⟨el, by simp [scanSpans, matchingScenario_model _ hel]⟩
  | cons p ps ih =>
    have ih2 := ih (fun e he => hpre e (List.mem_cons_of_mem _ he))
    by_cases hm : includes (textContent d p) modelConnectionError.errorMessage = true
    · exact ⟨p, by simp [scanSpans, matchingScenario_model _ hm]⟩
    · have hm2 : includes (textContent d p) modelConnectionError.errorMessage = false := by
        simpa using hm
      have hn : includes (textContent d p) networkConnectionError.errorMessage = false := by
        by_contra hc
        have := hpre p (List.mem_cons_self _ _) (by simpa using hc)
        exact hm this
      obtain ⟨e, he⟩ := ih2
      exact ⟨e, by simp [scanSpans, matchingScenario_none _ hm2 hn, he]⟩

/-! ## Lemmas on a backup plan that does not throw -/

/-- When `executeBackupPlan()` does not throw, the verification callback
branches on `findActiveError` of the document as it is when the timer fires:
with an error reported it logs the failure and runs the backup plan once,
otherwise it logs the success and does not run it; either way it ends with the
closing log line and `isAttemptingRecovery = false`, and it schedules no
further verification. -/
theorem verificationCallback_completes (scenario : ErrorScenario) (s : State) (d : Document)
    (hplan : threw (executeBackupPlan d) = false) :
    (verificationCallback scenario s d).1 = { s with isAttemptingRecovery := false } ∧
    (verificationCallback scenario s d).2 =
      (if (findActiveError d).isSome then
        [verifyStartMessage, verifyFailedMessage] ++ executeBackupPlan d ++ [recoveryEndMessage]
      else [verifyStartMessage, verifySuccessMessage scenario, recoveryEndMessage]) ∧
    (verificationCallback scenario s d).2.count backupPlanBanner =
      (if (findActiveError d).isSome then 1 else 0) ∧
    (scheduled (verificationCallback scenario s d).2).filter Callback.isVerification = [] := by
  have hcount := executeBackupPlan_banner d
  refine ⟨?_, ?_, ?_, verificationCallback_count scenario s d⟩
  · unfold verificationCallback
    cases findActiveError d <;> simp [hplan]
  · unfold verificationCallback
    cases findActiveError d <;> simp [hplan]
  · unfold verificationCallback
    cases findActiveError d with
    | none =>
      simp [verifyStartMessage, verifySuccessMessage, recoveryEndMessage, backupPlanBanner]
    | some found =>
      simp only [hplan, Bool.false_eq_true, if_false, Option.isSome_some, if_true,
        List.cons_append, List.nil_append, List.count_cons, List.count_append, hcount,
        List.count_nil]
      simp [verifyStartMessage, verifyFailedMessage, recoveryEndMessage, backupPlanBanner]

/-- When `executeBackupPlan()` does not throw: on a tick outside the cooldown,
with no recovery in flight and no proactive match, where `findActiveError`
returns `(element, scenario)`, if the element has no enclosing
`.bg-dropdown-background` container, or the container has no span whose
trimmed text equals the button text, or the first such span has no clickable
ancestor, the tick logs the error and the reason, runs `executeBackupPlan`
once, clicks nothing, schedules no verification callback and ends with
`isAttemptingRecovery = false` and `lastActionTime` set. -/
theorem fallback_completes (s : State) (d : Document) (now now2 : Int)
    (element : Path) (scenario : ErrorScenario)
    (hcool : ¬ now - s.lastActionTime < 1000)
    (hidle : s.isAttemptingRecovery = false)
    (hpro : (handleProactiveActions d).1 = false)
    (herr : findActiveError d = some (element, scenario))
    (hmiss : closest d element errorContainerSelector = none ∨
      ∃ errorContainer, closest d element errorContainerSelector = some errorContainer ∧
        ((querySelectorAllIn d errorContainer spanSelector).find?
            (fun e => trim (textContent d e) == scenario.buttonText) = none ∨
         ∃ btnSpan, (querySelectorAllIn d errorContainer spanSelector).find?
            (fun e => trim (textContent d e) == scenario.buttonText) = some btnSpan ∧
            closest d btnSpan recoveryClickableSelector = none))
    (hplan : threw (executeBackupPlan d) = false) :
    (∃ notice, (notice = noContainerMessage ∨ notice = noButtonMessage scenario) ∧
      performCheckAndAction s d now now2 =
        ({ s with isAttemptingRecovery := false, lastActionTime := now2 },
          [detectedMessage scenario, notice] ++ executeBackupPlan d)) ∧
    (∀ e ∈ (performCheckAndAction s d now now2).2, e.isClick = false) ∧
    (scheduled (performCheckAndAction s d now now2).2).filter Callback.isVerification = [] ∧
    (performCheckAndAction s d now now2).2.count backupPlanBanner = 1 := by
  have hp := scanActions_false d PROACTIVE_ACTIONS hpro
  have hshape : ∃ notice, (notice = noContainerMessage ∨ notice = noButtonMessage scenario) ∧
      performCheckAndAction s d now now2 =
        ({ s with isAttemptingRecovery := false, lastActionTime := now2 },
          [detectedMessage scenario, notice] ++ executeBackupPlan d) := by
    unfold performCheckAndAction
    rw [if_neg hcool]
    rcases hmiss with hnone | ⟨c, hc, hrest⟩
    · refine ⟨noContainerMessage, Or.inl rfl, ?_⟩
      simp [hidle, handleProactiveActions, hp, herr, hnone, hplan]
    · have hb : findActionButton d scenario (querySelectorAllIn d c spanSelector) = none := by
        rw [findActionButton_eq]
        rcases hrest with h | ⟨sp, h1, h2⟩
        · rw [h]; rfl
        · rw [h1]; simpa using h2
      refine ⟨noButtonMessage scenario, Or.inr rfl, ?_⟩
      simp [hidle, handleProactiveActions, hp, herr, hc, hb, hplan]
  refine ⟨hshape, ?_, ?_, ?_⟩
  · obtain ⟨notice, hn, hrun⟩ := hshape
    rw [hrun]
    intro e he
    simp only [List.cons_append, List.nil_append, List.mem_cons] at he
    rcases he with he | he | he
    · subst he; rfl
    · subst he; rcases hn with hn | hn <;> subst hn <;> rfl
    · exact executeBackupPlan_no_click d e he
  · obtain ⟨notice, hn, hrun⟩ := hshape
    rw [hrun]
    rcases hn with hn | hn <;> subst hn <;>
      simp [scheduled_log, detectedMessage, noContainerMessage, noButtonMessage,
        executeBackupPlan_scheduled]
  · obtain ⟨notice, hn, hrun⟩ := hshape
    rw [hrun]
    simp only [List.cons_append, List.nil_append, List.count_cons, executeBackupPlan_banner]
    rcases hn with hn | hn <;> subst hn <;>
      simp [detectedMessage, noContainerMessage, noButtonMessage, backupPlanBanner]

/-! ## The claims -/

/-- C1 (single-flight recovery): in every state reachable from an idle state
without pending timers by ticks and timer firings, over any documents, at most
one verification callback is pending; and a tick that runs while
`isAttemptingRecovery` is true leaves the state and the pending timers as they
are and performs at most the skip log line: no click, no timer, no backup
plan, whatever the document holds. -/
theorem single_flight (sys : System) (h : Reachable sys) :
    sys.pendingVerifications ≤ 1 ∧
    ∀ (d : Document) (now now2 : Int), sys.state.isAttemptingRecovery = true →
      ∃ effects, (effects = [] ∨ effects = [skipMessage]) ∧
        performCheckAndAction sys.state d now now2 = (sys.state, effects) ∧
        sys.step (Event.tick d now now2) = some (sys, effects) := by
  have hinv := reachable_invariant sys h
  constructor
  · split at hinv <;> omega
  · intro d now now2 hf
    rcases tick_in_flight sys.state d now now2 hf with h1 | h1
    · exact ⟨[], Or.inl rfl, h1, by simp [System.step, h1, scheduled_nil]⟩
    · exact ⟨[skipMessage], Or.inr rfl, h1,
        by simp [System.step, h1, skipMessage, scheduled_log, scheduled_nil]⟩

/-- Witness of C1: after a recovery tick on the network error banner one
verification callback is pending, and the next tick on the same document,
outside the cooldown, only logs that it is skipped. -/
theorem single_flight_witness :
    recoveringSystem.state.isAttemptingRecovery = true ∧
    recoveringSystem.pendingVerifications = 1 ∧
    (findActiveError networkErrorDocument).isSome = true ∧
    performCheckAndAction recoveringSystem.state networkErrorDocument 9000 9000 =
      (recoveringSystem.state, [skipMessage]) ∧
    (recoveringSystem.pendingVerifications ≤ 1 ∧
     ∀ (d : Document) (now now2 : Int), recoveringSystem.state.isAttemptingRecovery = true →
      ∃ effects, (effects = [] ∨ effects = [skipMessage]) ∧
        performCheckAndAction recoveringSystem.state d now now2 =
          (recoveringSystem.state, effects) ∧
        recoveringSystem.step (Event.tick d now now2) = some (recoveringSystem, effects)) :=
  ⟨by decide, by decide, by decide, by decide,
    single_flight recoveringSystem
      (Reachable.step (Reachable.init State.initial rfl)
        (show System.step { state := State.initial, timers := [] }
            (Event.tick networkErrorDocument 5000 5001) =
          some (recoveringSystem,
            (performCheckAndAction State.initial networkErrorDocument 5000 5001).2) from rfl))⟩

/-- C2 (debounce): a tick whose clock reading `now` satisfies
`now - lastActionTime < 1000` is a no-op: it performs no effect at all (no
click, focus, content write or timer) and returns the state unchanged,
whatever the state and the document. -/
theorem debounce_noop (s : State) (d : Document) (now now2 : Int)
    (hcool : now - s.lastActionTime < 1000) :
    performCheckAndAction s d now now2 = (s, []) := by
  unfold performCheckAndAction
  rw [if_pos hcool]

/-- Witness of C2: 500 ms after an action, a tick on a document with a span
"Accept ⏎" does nothing, although the same tick 1000 ms after it clicks. -/
theorem debounce_noop_witness :
    (performCheckAndAction { State.initial with lastActionTime := 5000 } acceptDocument
        6000 6000).2.any Effect.isClick = true ∧
    performCheckAndAction { State.initial with lastActionTime := 5000 } acceptDocument
        5500 5500 = ({ State.initial with lastActionTime := 5000 }, []) :=
  ⟨by decide,
    debounce_noop { State.initial with lastActionTime := 5000 } acceptDocument 5500 5500
      (by decide)⟩

/-- C3 (priority ordering): on a tick outside the cooldown with no recovery in
flight, when `handleProactiveActions` acts, the tick is over: the effects are
the log line and the click of the matched proactive element, the only state
change is `lastActionTime := now2` (the clock read at the assignment),
`isAttemptingRecovery` stays false, no timer is scheduled and the backup plan
is not run, whatever error message the document holds. -/
theorem proactive_priority (s : State) (d : Document) (now now2 : Int)
    (hcool : ¬ now - s.lastActionTime < 1000)
    (hidle : s.isAttemptingRecovery = false)
    (hacted : (handleProactiveActions d).1 = true) :
    ∃ action ∈ PROACTIVE_ACTIONS, ∃ el ∈ querySelectorAll d action.target,
      actionMatches action (trim (textContent d el)) = true ∧
      performCheckAndAction s d now now2 =
        ({ s with lastActionTime := now2 },
          [Effect.log (proactiveMessage action (trim (textContent d el))) LogType.success,
           Effect.click (clickableElement d el)]) ∧
      (performCheckAndAction s d now now2).1.isAttemptingRecovery = false ∧
      scheduled (performCheckAndAction s d now now2).2 = [] ∧
      backupPlanBanner ∉ (performCheckAndAction s d now now2).2 := by
  have hp : handleProactiveActions d = (true, (handleProactiveActions d).2) := by
    rw [← hacted]
  obtain ⟨action, ha, el, hel, hm, _, heff⟩ := scanActions_true d PROACTIVE_ACTIONS _ hp
  have hrun : performCheckAndAction s d now now2 =
      ({ s with lastActionTime := now2 },
        [Effect.log (proactiveMessage action (trim (textContent d el))) LogType.success,
         Effect.click (clickableElement d el)]) := by
    unfold performCheckAndAction
    rw [if_neg hcool, hp, heff]
    simp [hidle]
  refine ⟨action, ha, el, hel, hm, hrun, ?_, ?_, ?_⟩
  · rw [hrun]; exact hidle
  · rw [hrun]; rfl
  · rw [hrun]; simp [backupPlanBanner]

/-- Witness of C3: a document with both a span "Accept ⏎" and a network error
banner; the tick clicks the proactive element and starts no recovery. -/
theorem proactive_priority_witness :
    (findActiveError (acceptDocument ++ networkErrorDocument)).isSome = true ∧
    ∃ action ∈ PROACTIVE_ACTIONS,
      ∃ el ∈ querySelectorAll (acceptDocument ++ networkErrorDocument) action.target,
      actionMatches action (trim (textContent (acceptDocument ++ networkErrorDocument) el))
        = true ∧
      performCheckAndAction State.initial (acceptDocument ++ networkErrorDocument) 5000 5001 =
        ({ State.initial with lastActionTime := 5001 },
          [Effect.log (proactiveMessage action
              (trim (textContent (acceptDocument ++ networkErrorDocument) el))) LogType.success,
           Effect.click (clickableElement (acceptDocument ++ networkErrorDocument) el)]) ∧
      (performCheckAndAction State.initial (acceptDocument ++ networkErrorDocument)
        5000 5001).1.isAttemptingRecovery = false ∧
      scheduled (performCheckAndAction State.initial (acceptDocument ++ networkErrorDocument)
        5000 5001).2 = [] ∧
      backupPlanBanner ∉ (performCheckAndAction State.initial
        (acceptDocument ++ networkErrorDocument) 5000 5001).2 :=
  ⟨by decide,
    proactive_priority State.initial (acceptDocument ++ networkErrorDocument) 5000 5001
      (by decide) rfl (by decide)⟩

/-- Counterexample to C4 as stated: the banner of `networkErrorSvgButton` meets
every condition of the claim (the first span reading "Try again" resolves to
the anchor at path `[0, 1]`), but that anchor has no `click` function, so the
tick clicks nothing, schedules no timer, runs the backup plan and clears
`isAttemptingRecovery`. -/
theorem recovery_click_counterexample :
    (handleProactiveActions networkErrorSvgButton).1 = false ∧
    findActiveError networkErrorSvgButton = some ([0, 0], networkConnectionError) ∧
    closest networkErrorSvgButton [0, 0] errorContainerSelector = some [0] ∧
    (querySelectorAllIn networkErrorSvgButton [0] spanSelector).find?
      (fun e => trim (textContent networkErrorSvgButton e) ==
        networkConnectionError.buttonText) = some [0, 1, 0, 0] ∧
    closest networkErrorSvgButton [0, 1, 0, 0] recoveryClickableSelector = some [0, 1] ∧
    (performCheckAndAction State.initial networkErrorSvgButton 5000 5001).2.any
      Effect.isClick = false ∧
    scheduled (performCheckAndAction State.initial networkErrorSvgButton 5000 5001).2 = [] ∧
    (performCheckAndAction State.initial networkErrorSvgButton 5000 5001).2.count
      backupPlanBanner = 1 ∧
    (performCheckAndAction State.initial networkErrorSvgButton 5000
      5001).1.isAttemptingRecovery = false := by
  decide

/-- C4 amended (Idle -> Recovering -> Verifying): on a tick outside the
cooldown, with no recovery in flight and no proactive match, where
`findActiveError` returns `(element, scenario)`, the element has an enclosing
`.bg-dropdown-background` container, the first span of the container whose
trimmed text equals the button text resolves through `closest` to an element
`b`, and `b` has a `click` function: the tick clicks `b` once and nothing
else, sets `isAttemptingRecovery` and `lastActionTime`, schedules one
verification callback after `VERIFICATION_TIMEOUT` = 5000 ms and does not run
the backup plan. -/
theorem recovery_click (s : State) (d : Document) (now now2 : Int)
    (element : Path) (scenario : ErrorScenario) (errorContainer btnSpan b : Path)
    (hcool : ¬ now - s.lastActionTime < 1000)
    (hidle : s.isAttemptingRecovery = false)
    (hpro : (handleProactiveActions d).1 = false)
    (herr : findActiveError d = some (element, scenario))
    (hcont : closest d element errorContainerSelector = some errorContainer)
    (hspan : (querySelectorAllIn d errorContainer spanSelector).find?
        (fun e => trim (textContent d e) == scenario.buttonText) = some btnSpan)
    (hbtn : closest d btnSpan recoveryClickableSelector = some b)
    (hclick : hasClick d b = true) :
    performCheckAndAction s d now now2 =
      ({ s with isAttemptingRecovery := true, lastActionTime := now2 },
        [detectedMessage scenario, clickedMessage scenario, Effect.click b,
         Effect.setTimeout (Callback.verification scenario) VERIFICATION_TIMEOUT]) ∧
    VERIFICATION_TIMEOUT = 5000 ∧
    backupPlanBanner ∉ (performCheckAndAction s d now now2).2 := by
  have hp := scanActions_false d PROACTIVE_ACTIONS hpro
  have hb : findActionButton d scenario (querySelectorAllIn d errorContainer spanSelector)
      = some b := by
    rw [findActionButton_eq, hspan]; simpa using hbtn
  have hrun : performCheckAndAction s d now now2 =
      ({ s with isAttemptingRecovery := true, lastActionTime := now2 },
        [detectedMessage scenario, clickedMessage scenario, Effect.click b,
         Effect.setTimeout (Callback.verification scenario) VERIFICATION_TIMEOUT]) := by
    unfold performCheckAndAction
    rw [if_neg hcool]
    simp [hidle, handleProactiveActions, hp, herr, hcont, hb, hclick]
  refine ⟨hrun, rfl, ?_⟩
  rw [hrun]
  simp [backupPlanBanner, detectedMessage, clickedMessage]

/-- Witness of C4 amended: the network error banner with an HTML button. -/
theorem recovery_click_witness :
    hasClick networkErrorDocument [0, 1] = true ∧
    performCheckAndAction State.initial networkErrorDocument 5000 5001 =
      ({ State.initial with isAttemptingRecovery := true, lastActionTime := 5001 },
        [detectedMessage networkConnectionError, clickedMessage networkConnectionError,
         Effect.click [0, 1],
         Effect.setTimeout (Callback.verification networkConnectionError)
           VERIFICATION_TIMEOUT]) ∧
    VERIFICATION_TIMEOUT = 5000 ∧
    backupPlanBanner ∉ (performCheckAndAction State.initial networkErrorDocument 5000 5001).2 :=
  ⟨by decide,
    recovery_click State.initial networkErrorDocument 5000 5001 [0, 0] networkConnectionError
      [0] [0, 1, 0] [0, 1] (by decide) rfl (by decide) (by decide) (by decide) (by decide)
      (by decide) (by decide)⟩

/-- C5 fails on the code (Verifying -> Idle): a recovery tick on the network
error banner schedules the verification callback; when it fires, the banner is
still shown and the element matching the input box selector has no `focus`
method. The callback logs, finds the error, starts the backup plan, and the
unguarded `inputBox.focus()` of line 130 throws: the closing log line and the
assignment of line 206 are not reached, `isAttemptingRecovery` stays true with
no timer pending, and every later tick is skipped. -/
theorem verification_throw_keeps_flag :
    recoveringSystem.state.isAttemptingRecovery = true ∧
    recoveringSystem.timers = [Callback.verification networkConnectionError] ∧
    (findActiveError networkErrorPersistsForeignInput).isSome = true ∧
    querySelector networkErrorPersistsForeignInput inputBoxSelector = some [1] ∧
    hasFocus networkErrorPersistsForeignInput [1] = false ∧
    recoveringSystem.step (Event.fire 0 networkErrorPersistsForeignInput) =
      some ({ state := recoveringSystem.state, timers := [] },
        [verifyStartMessage, verifyFailedMessage, backupPlanBanner, typingMessage,
         Effect.typeError]) ∧
    performCheckAndAction recoveringSystem.state networkErrorPersistsForeignInput 60000 60000 =
      (recoveringSystem.state, [skipMessage]) := by
  decide

/-- C6 fails on the code (fallback when the recovery control cannot be
located): `networkErrorForeignInput` meets the conditions of the claim (no
proactive match, an error span without enclosing container), and the element
matching the input box selector has no `focus` method. The tick sets
`isAttemptingRecovery`, logs, starts the backup plan, and the unguarded
`inputBox.focus()` of line 130 throws: the assignment of line 181 is not
reached, the tick ends with `isAttemptingRecovery = true` with no timer
scheduled, and every later tick is skipped. -/
theorem fallback_throw_keeps_flag :
    (handleProactiveActions networkErrorForeignInput).1 = false ∧
    findActiveError networkErrorForeignInput = some ([0, 0], networkConnectionError) ∧
    closest networkErrorForeignInput [0, 0] errorContainerSelector = none ∧
    querySelector networkErrorForeignInput inputBoxSelector = some [1] ∧
    hasFocus networkErrorForeignInput [1] = false ∧
    performCheckAndAction State.initial networkErrorForeignInput 5000 5001 =
      ({ State.initial with isAttemptingRecovery := true, lastActionTime := 5001 },
        [detectedMessage networkConnectionError, noContainerMessage, backupPlanBanner,
         typingMessage, Effect.typeError]) ∧
    performCheckAndAction
        { State.initial with isAttemptingRecovery := true, lastActionTime := 5001 }
        networkErrorForeignInput 60000 60000 =
      ({ State.initial with isAttemptingRecovery := true, lastActionTime := 5001 },
        [skipMessage]) := by
  decide

/-- Counterexample to C7 as stated: in `modelErrorInDiv` an element (the `div`
at path `[0]`) holds the model error message but the document has no span, and
`findActiveError` returns `null`; in `networkBeforeModel` the span at `[1]`
holds the message but an earlier span reads "Connection failed", and the
result is the scenario "Network Connection Error". -/
theorem findActiveError_counterexample :
    includes (textContent modelErrorInDiv [0]) modelConnectionError.errorMessage = true ∧
    findActiveError modelErrorInDiv = none ∧
    includes (textContent networkBeforeModel [1]) modelConnectionError.errorMessage = true ∧
    findActiveError networkBeforeModel = some ([0], networkConnectionError) := by
  decide

/-- C7 amended: when the document has a span whose text content contains
"We're having trouble connecting to the model provider", anywhere in its text,
and every span before it in document order that contains "Connection failed"
also contains that message, `findActiveError` returns a non-null result whose
scenario is "Model Connection Error". -/
theorem findActiveError_model (d : Document) (pre post : List Path) (el : Path)
    (hspans : querySelectorAll d spanSelector = pre ++ el :: post)
    (hel : includes (textContent d el) modelConnectionError.errorMessage = true)
    (hpre : ∀ e ∈ pre, includes (textContent d e) networkConnectionError.errorMessage = true →
      includes (textContent d e) modelConnectionError.errorMessage = true) :
    ∃ e, findActiveError d = some (e, modelConnectionError) ∧
      modelConnectionError.name = "Model Connection Error".toList := by
  obtain ⟨e, he⟩ := scanSpans_model d pre post el hel hpre
  exact ⟨e, by rw [findActiveError, hspans, he], rfl⟩

/-- Witness of C7 amended: the model error banner, whose first span holds the
message between other words. -/
theorem findActiveError_model_witness :
    querySelectorAll modelErrorDocument spanSelector = [] ++ [0, 0] :: [[0, 1, 0]] ∧
    includes (textContent modelErrorDocument [0, 0]) modelConnectionError.errorMessage = true ∧
    ∃ e, findActiveError modelErrorDocument = some (e, modelConnectionError) ∧
      modelConnectionError.name = "Model Connection Error".toList :=
  ⟨by decide, by decide,
    findActiveError_model modelErrorDocument [] [[0, 1, 0]] [0, 0] (by decide) (by decide)
      (by simp)⟩

/-- C8: the "Accept Suggestion" rule accepts exactly the texts made of the
prefix "Accept", a middle without line terminators and the suffix "⏎"
(the case-sensitive pattern `^Accept.*⏎$`); it matches "Accept ⏎",
"Accepted ⏎" and "Accept all changes ⏎" and rejects "Accept" and "accept ⏎";
and the test is stateless: the expression has neither the `g` nor the `y`
flag, so `test` leaves the object as it is and its result does not depend on
`lastIndex`. -/
theorem accept_rule :
    (∀ text : JSString, actionMatches acceptSuggestion text = true ↔
      ∃ middle, text = "Accept".toList ++ middle ++ "⏎".toList ∧
        ∀ c ∈ middle, isLineTerminator c = false) ∧
    actionMatches acceptSuggestion "Accept ⏎".toList = true ∧
    actionMatches acceptSuggestion "Accepted ⏎".toList = true ∧
    actionMatches acceptSuggestion "Accept all changes ⏎".toList = true ∧
    actionMatches acceptSuggestion "Accept".toList = false ∧
    actionMatches acceptSuggestion "accept ⏎".toList = false ∧
    (∀ (n : Nat) (text : JSString),
      ({ acceptRegExp with lastIndex := n }.test text).1 = actionMatches acceptSuggestion text ∧
      ({ acceptRegExp with lastIndex := n }.test text).2 = { acceptRegExp with lastIndex := n }) := by
  refine ⟨fun text => accept_iff text, by decide, by decide, by decide, by decide, by decide,
    fun n text => test_stateless n text⟩

/-- Counterexample to C9 as stated: `acceptInSvgAnchor` contains a span whose
trimmed text matches the rule, but its nearest clickable ancestor, the anchor
at path `[0]`, has no `click` function: a tick outside the cooldown with no
recovery in flight clicks nothing and leaves `lastActionTime` as it was. -/
theorem accept_click_counterexample :
    (querySelectorAll acceptInSvgAnchor spanSelector).find?
      (fun e => actionMatches acceptSuggestion (trim (textContent acceptInSvgAnchor e))) =
        some [0, 0, 0] ∧
    clickableElement acceptInSvgAnchor [0, 0, 0] = [0] ∧
    hasClick acceptInSvgAnchor [0] = false ∧
    performCheckAndAction State.initial acceptInSvgAnchor 5000 5001 = (State.initial, []) := by
  decide

/-- C9 amended (scenario A): when the document contains a span whose trimmed
text matches the "Accept Suggestion" rule and the nearest clickable ancestor
of the first such span in document order (the nearest element, from the span
itself upwards, that is a `div`, an anchor, a span with `role="link"` or
carries `data-link`; the span itself if there is none) has a `click`
function, a tick outside the cooldown with no recovery in flight performs
exactly one click, on that element, and sets `lastActionTime`; no later
element or rule is acted on in that tick. -/
theorem accept_click (s : State) (d : Document) (now now2 : Int) (el : Path)
    (hcool : ¬ now - s.lastActionTime < 1000)
    (hidle : s.isAttemptingRecovery = false)
    (hfirst : (querySelectorAll d spanSelector).find?
        (fun e => actionMatches acceptSuggestion (trim (textContent d e))) = some el)
    (hclick : hasClick d (clickableElement d el) = true) :
    performCheckAndAction s d now now2 =
      ({ s with lastActionTime := now2 },
        [Effect.log (proactiveMessage acceptSuggestion (trim (textContent d el)))
           LogType.success,
         Effect.click (clickableElement d el)]) ∧
    clickableElement d el = (closest d el proactiveClickableSelector).getD el := by
  have hne : ¬ (querySelectorAll d spanSelector).length = 0 := by
    intro h0
    rw [List.length_eq_zero] at h0
    rw [h0] at hfirst
    simp at hfirst
  have hs := scanElements_first d acceptSuggestion _ el hfirst hclick
  have hp : handleProactiveActions d =
      (true, [Effect.log (proactiveMessage acceptSuggestion (trim (textContent d el)))
           LogType.success, Effect.click (clickableElement d el)]) := by
    show scanActions d [acceptSuggestion, resumeConversation] = _
    simp only [scanActions]
    have ht : acceptSuggestion.target = spanSelector := rfl
    rw [ht, hs]
    simp [hne]
  refine ⟨?_, rfl⟩
  unfold performCheckAndAction
  rw [if_neg hcool, hp]
  simp [hidle]

/-- Witness of C9 amended: the span "Accept ⏎" inside a `div`; the tick clicks
the `div`. -/
theorem accept_click_witness :
    hasClick acceptDocument (clickableElement acceptDocument [0, 0]) = true ∧
    clickableElement acceptDocument [0, 0] = [0] ∧
    performCheckAndAction State.initial acceptDocument 5000 5001 =
      ({ State.initial with lastActionTime := 5001 },
        [Effect.log (proactiveMessage acceptSuggestion
            (trim (textContent acceptDocument [0, 0]))) LogType.success,
         Effect.click (clickableElement acceptDocument [0, 0])]) ∧
    clickableElement acceptDocument [0, 0] =
      (closest acceptDocument [0, 0] proactiveClickableSelector).getD [0, 0] :=
  ⟨by decide, by decide,
    accept_click State.initial acceptDocument 5000 5001 [0, 0] (by decide) rfl (by decide)
      (by decide)⟩

/-- Counterexample to C10 as stated: after `start()` and `stopAssistant()`, an
invocation of `performCheckAndAction` at time 5000 on a document with a span
"Accept ⏎" clicks and sets `lastActionTime`: the function has no check of
whether the script runs. -/
theorem tick_after_stop_counterexample :
    (stopAssistant (start State.initial 7).1).1 = State.initial ∧
    performCheckAndAction (stopAssistant (start State.initial 7).1).1 acceptDocument
        5000 5001 =
      ({ State.initial with lastActionTime := 5001 },
        [Effect.log (proactiveMessage acceptSuggestion "Accept ⏎".toList) LogType.success,
         Effect.click [0]]) := by
  decide

/-- C10 amended (stop): when `stopAssistant()` is invoked while the script runs
(`intervalId` holds the non-zero handle `setInterval` returned), it calls
`clearInterval` on that handle, so that the interval is no longer active and
delivers no further tick, sets `intervalId` to `null`, clears
`isAttemptingRecovery` and removes the stop handle; invoked again it only logs
a warning. -/
theorem stop_clears_interval (s : State) (id : Nat) (table : List Nat)
    (hrun : s.intervalId = some id) (hid : id ≠ 0) :
    stopAssistant s =
      ({ s with intervalId := none, isAttemptingRecovery := false, stopHandle := false },
        [Effect.clearInterval id,
         Effect.log "脚本已手动停止。".toList LogType.info,
         Effect.consoleLog "%c脚本已停止。如需重新启动，请再次粘贴并运行脚本代码。".toList]) ∧
    id ∉ activeIntervals table (stopAssistant s).2 ∧
    stopAssistant (stopAssistant s).1 =
      ((stopAssistant s).1, [Effect.log "脚本已经停止了。".toList LogType.warn]) := by
  have hne : (id == 0) = false := by simpa using hid
  have hstop : stopAssistant s =
      ({ s with intervalId := none, isAttemptingRecovery := false, stopHandle := false },
        [Effect.clearInterval id,
         Effect.log "脚本已手动停止。".toList LogType.info,
         Effect.consoleLog "%c脚本已停止。如需重新启动，请再次粘贴并运行脚本代码。".toList]) := by
    simp [stopAssistant, hrun, hne]
  refine ⟨hstop, ?_, ?_⟩
  · rw [hstop]
    simp [activeIntervals]
  · rw [hstop]
    simp [stopAssistant]

/-- Witness of C10 amended: a script started with interval handle 7, whose
interval is active, is stopped. -/
theorem stop_clears_interval_witness :
    activeIntervals [] (start State.initial 7).2 = [7] ∧
    startedState.intervalId = some 7 ∧
    (stopAssistant startedState =
      ({ startedState with
          intervalId := none, isAttemptingRecovery := false, stopHandle := false },
        [Effect.clearInterval 7,
         Effect.log "脚本已手动停止。".toList LogType.info,
         Effect.consoleLog "%c脚本已停止。如需重新启动，请再次粘贴并运行脚本代码。".toList]) ∧
    7 ∉ activeIntervals [7] (stopAssistant startedState).2 ∧
    stopAssistant (stopAssistant startedState).1 =
      ((stopAssistant startedState).1, [Effect.log "脚本已经停止了。".toList LogType.warn])) :=
  ⟨by decide, by decide, stop_clears_interval startedState 7 [7] (by decide) (by decide)⟩

end CursorAutoClicks
